import Mathlib

/-!
Verification development for the TerraHold hand-gesture interpretation
engine.  The definitions below are a shallow embedding of the hand-tracking
module (the `HandTracker` class): its smoothing buffers, palm-center
computation, finger-curl gate, role resolution with the anti-split
separation check, the pinch-zoom state machine, the scale factor and
rotation delta outputs, and — from the debouncing variant of the module —
the per-role lost-frame counters and the hands-lost event.

Coordinates are modelled as exact rationals.  The JavaScript source works
in IEEE doubles; every comparison and arithmetic step the claims are about
is carried over exactly, so the rational model is the idealised real-number
semantics of the code.  Two places in the source compute `Math.sqrt`:

* the two-hand separation test compares `Math.sqrt(dx*dx + dy*dy)` against
  the constant `MIN_HAND_SEPARATION`; since both sides are nonnegative and
  squaring is strictly monotone there, the embedding compares the squared
  separation against the squared constant — an equivalent test that stays
  inside ℚ;
* the raw thumb-tip/index-tip pinch distance is an input signal to the
  smoothing buffer and is irrational for generic landmarks, so the
  right-hand processing function takes that Euclidean distance as an
  explicit argument (field `pinchDist` of a detection); everything
  downstream of it in the source is exact in that value.
-/

namespace TerraHold

/-- Normalized 2D point, as produced by the landmark detector. -/
structure Pt where
  x : ℚ
  y : ℚ
deriving DecidableEq, Repr

/-- One hand detection: its landmarks, indexed 0..20 as in the source's
landmark array. -/
abbrev Landmarks : Type := ℕ → Pt

/-- CONFIG.BUFFER_SIZE_POSITION. -/
def BUFFER_SIZE_POSITION : ℕ := 3

/-- CONFIG.BUFFER_SIZE_PINCH. -/
def BUFFER_SIZE_PINCH : ℕ := 3

/-- CONFIG.MIN_HAND_SEPARATION. -/
def MIN_HAND_SEPARATION : ℚ := 18/100

/-- CONFIG.PINCH_THRESHOLD. -/
def PINCH_THRESHOLD : ℚ := 5/100

/-- CONFIG.PINCH_RELEASE_THRESHOLD. -/
def PINCH_RELEASE_THRESHOLD : ℚ := 8/100

/-- CONFIG.CLUTCH_VELOCITY_THRESHOLD. -/
def CLUTCH_VELOCITY_THRESHOLD : ℚ := 2/100

/-- `_smoothPosition(buffer, newPos)`: push a copy of the new position,
shift the oldest sample out once the buffer exceeds the position capacity,
and return the componentwise average.  Returns the updated buffer together
with the smoothed position (in the source the buffer is mutated in place). -/
def smoothPosition (buffer : List Pt) (newPos : Pt) : List Pt × Pt :=
  let b1 := buffer ++ [newPos]
  let b2 := if BUFFER_SIZE_POSITION < b1.length then b1.drop 1 else b1
  let sx := (b2.map Pt.x).sum
  let sy := (b2.map Pt.y).sum
  (b2, ⟨sx / (b2.length : ℚ), sy / (b2.length : ℚ)⟩)

/-- `_smoothValue(buffer, newVal)`: push the new scalar, shift the oldest
sample out once the buffer exceeds the pinch capacity, and return the
average.  Returns the updated buffer together with the smoothed value. -/
def smoothValue (buffer : List ℚ) (newVal : ℚ) : List ℚ × ℚ :=
  let b1 := buffer ++ [newVal]
  let b2 := if BUFFER_SIZE_PINCH < b1.length then b1.drop 1 else b1
  (b2, b2.sum / (b2.length : ℚ))

/-- Palm landmark indices: wrist plus the four MCP joints. -/
def palmIndices : List ℕ := [0, 5, 9, 13, 17]

/-- `_calculatePalmCenter(landmarks)`: unweighted centroid of the wrist and
the four MCP joints. -/
def calculatePalmCenter (lm : Landmarks) : Pt :=
  let cx := (palmIndices.map fun i => (lm i).x).sum
  let cy := (palmIndices.map fun i => (lm i).y).sum
  ⟨cx / (palmIndices.length : ℚ), cy / (palmIndices.length : ℚ)⟩

/-- `_isFingerClosed(landmarks, tipIdx, pipIdx)`: the fingertip counts as
curled when it is strictly closer to the wrist than the finger's PIP joint
is, compared by squared 2D distance. -/
def isFingerClosed (lm : Landmarks) (tipIdx pipIdx : ℕ) : Bool :=
  let wrist := lm 0
  let tip := lm tipIdx
  let pip := lm pipIdx
  let dTip := (tip.x - wrist.x)^2 + (tip.y - wrist.y)^2
  let dPip := (pip.x - wrist.x)^2 + (pip.y - wrist.y)^2
  decide (dTip < dPip)

/-- Strict gesture gate: middle (tip 12 / PIP 10), ring (16/14) and pinky
(20/18) must all be curled. -/
def strictGestureValid (lm : Landmarks) : Bool :=
  isFingerClosed lm 12 10 && isFingerClosed lm 16 14 && isFingerClosed lm 20 18

/-- Mutable state of the tracker (the fields of the `HandTracker` class that
the per-frame processing reads or writes). -/
structure TrackerState where
  leftHandDetected : Bool
  rightHandDetected : Bool
  handsCount : ℕ
  leftPalm : Pt
  rightPalm : Pt
  prevRightPalm : Option Pt
  pinchDistance : ℚ
  prevPinchDistance : ℚ
  isZooming : Bool
  startPinchDistance : ℚ
  rightHandActive : Bool
  leftPalmBuffer : List Pt
  rightPalmBuffer : List Pt
  pinchBuffer : List ℚ
deriving DecidableEq, Repr

/-- Constructor defaults of the `HandTracker` class. -/
def initialState : TrackerState where
  leftHandDetected := false
  rightHandDetected := false
  handsCount := 0
  leftPalm := ⟨1/2, 1/2⟩
  rightPalm := ⟨1/2, 1/2⟩
  prevRightPalm := none
  pinchDistance := 0
  prevPinchDistance := 0
  isZooming := false
  startPinchDistance := 0
  rightHandActive := false
  leftPalmBuffer := []
  rightPalmBuffer := []
  pinchBuffer := []

/-- Payload of the `onRightHand` callback. -/
structure RightHandEvent where
  palmCenter : Pt
  isZooming : Bool
  scaleFactor : ℚ
  rotationDelta : Pt
deriving DecidableEq, Repr

/-- Events emitted while processing one frame: the `onLeftHand` payload (its
palm center), the `onRightHand` payload, and whether `onHandsLost` was
invoked. -/
structure FrameEvents where
  leftEvent : Option Pt
  rightEvent : Option RightHandEvent
  handsLost : Bool
deriving DecidableEq, Repr

/-- `_processLeftHand(landmarks)`: smooth the palm center into the left
buffer and emit it. -/
def processLeftHand (s : TrackerState) (lm : Landmarks) : TrackerState × Pt :=
  let rawPalm := calculatePalmCenter lm
  let r := smoothPosition s.leftPalmBuffer rawPalm
  ({ s with leftPalmBuffer := r.1, leftPalm := r.2 }, r.2)

/-- Pinch state transition block of `_processRightHand` (the "STATE
MACHINE: PINCH LOGIC" section): given the current zooming flag and
zoom-start reference, the freshly smoothed pinch distance, the
rapid-opening flag and the strict-gesture gate, produce the new zooming
flag and zoom-start reference. -/
def pinchTransition (zooming : Bool) (startDist smDist : ℚ)
    (opening gate : Bool) : Bool × ℚ :=
  if !zooming then
    if decide (smDist < PINCH_THRESHOLD) && gate then
      (true, smDist)
    else
      (zooming, startDist)
  else
    if decide (PINCH_RELEASE_THRESHOLD < smDist) || opening || !gate then
      (false, startDist)
    else
      (zooming, startDist)

/-- `_processRightHand(landmarks)`.  `rawDistance` is the Euclidean
thumb-tip (4) to index-tip (8) distance `Math.sqrt(dx*dx + dy*dy)` the
source computes from the landmarks; it is passed in as a rational because a
square root is irrational for generic landmarks, and every use the source
makes of it (smoothing, threshold comparisons, the scale ratio) is exact in
the value. -/
def processRightHand (s : TrackerState) (lm : Landmarks) (rawDistance : ℚ) :
    TrackerState × RightHandEvent :=
  let rawPalm := calculatePalmCenter lm
  let smPalm := smoothPosition s.rightPalmBuffer rawPalm
  let gateOk := strictGestureValid lm
  let smDist := smoothValue s.pinchBuffer rawDistance
  let pinchVelocity := smDist.2 - s.prevPinchDistance
  let isOpeningFast := decide (CLUTCH_VELOCITY_THRESHOLD < pinchVelocity)
  let zs := pinchTransition s.isZooming s.startPinchDistance smDist.2
    isOpeningFast gateOk
  let scaleFactor :=
    if zs.1 && decide ((1:ℚ)/1000 < zs.2) then smDist.2 / zs.2 else 1
  let rotDelta :=
    match s.rightHandActive, s.prevRightPalm with
    | true, some prev => Pt.mk (smPalm.2.x - prev.x) (smPalm.2.y - prev.y)
    | _, _ => ⟨0, 0⟩
  ({ s with
      rightPalmBuffer := smPalm.1
      rightPalm := smPalm.2
      pinchBuffer := smDist.1
      pinchDistance := smDist.2
      isZooming := zs.1
      startPinchDistance := zs.2
      rightHandActive := true
      prevPinchDistance := smDist.2
      prevRightPalm := some smPalm.2 },
   { palmCenter := smPalm.2
     isZooming := zs.1
     scaleFactor := scaleFactor
     rotationDelta := rotDelta })

/-- One hand detection as delivered to `_processResults`: its landmarks, the
detector's handedness label, and its raw thumb-to-index Euclidean pinch
distance (see `processRightHand` for why the distance is carried as data). -/
structure HandDet where
  lm : Landmarks
  label : String
  pinchDist : ℚ

/-- A frame's detection set: zero, one or two hand detections. -/
inductive FrameObservation where
  | nothing : FrameObservation
  | one : HandDet → FrameObservation
  | two : HandDet → HandDet → FrameObservation

/-- Left/right role pick for two separated detections ("Figure out left vs
right" in `_processResults`): the mirrored handedness labels decide when
they disagree; when both carry the same label the detection whose raw palm
center has the larger x becomes the user's left hand.  Returns the pair
(left-role detection, right-role detection). -/
def resolveTwo (h0 h1 : HandDet) (palm0 palm1 : Pt) : HandDet × HandDet :=
  let hand0IsLeft := h0.label == "Right"
  let hand1IsLeft := h1.label == "Right"
  if hand0IsLeft && !hand1IsLeft then (h0, h1)
  else if !hand0IsLeft && hand1IsLeft then (h1, h0)
  else if palm1.x < palm0.x then (h0, h1)
  else (h1, h0)

/-- `_processResults(results)` of the richest tracker variant: role
resolution with the minimum-separation anti-split check, buffer clearing,
and dispatch to the per-hand processors.  The separation test embeds the
source's `Math.sqrt(dx*dx+dy*dy) < MIN_HAND_SEPARATION` as the equivalent
squared comparison. -/
def processResults (s : TrackerState) (obs : FrameObservation) :
    TrackerState × FrameEvents :=
  match obs with
  | .nothing =>
    let s1 := { s with
      handsCount := 0
      leftHandDetected := false
      rightHandDetected := false
      rightHandActive := false
      prevRightPalm := none }
    (s1, { leftEvent := none, rightEvent := none, handsLost := true })
  | .one h =>
    let s1 := { s with
      handsCount := 1
      leftHandDetected := true
      rightHandDetected := false
      rightHandActive := false
      prevRightPalm := none
      rightPalmBuffer := []
      pinchBuffer := [] }
    let r := processLeftHand s1 h.lm
    (r.1, { leftEvent := some r.2, rightEvent := none, handsLost := false })
  | .two h0 h1 =>
    let palm0 := calculatePalmCenter h0.lm
    let palm1 := calculatePalmCenter h1.lm
    let dx := palm0.x - palm1.x
    let dy := palm0.y - palm1.y
    if dx * dx + dy * dy < MIN_HAND_SEPARATION * MIN_HAND_SEPARATION then
      let s1 := { s with
        handsCount := 1
        leftHandDetected := true
        rightHandDetected := false
        rightHandActive := false
        prevRightPalm := none
        rightPalmBuffer := []
        pinchBuffer := [] }
      let r := processLeftHand s1 h0.lm
      (r.1, { leftEvent := some r.2, rightEvent := none, handsLost := false })
    else
      let lr := resolveTwo h0 h1 palm0 palm1
      let s1 := { s with
        handsCount := 2
        leftHandDetected := true
        rightHandDetected := true }
      let l := processLeftHand s1 lr.1.lm
      let r := processRightHand l.1 lr.2.lm lr.2.pinchDist
      (r.1,
       { leftEvent := some l.2, rightEvent := some r.2, handsLost := false })

/-! Presence debouncing, from the tracker variant that keeps per-role
lost-frame counters (`leftLostFrames` / `rightLostFrames`, threshold
`LOST_THRESHOLD`).  In that variant `_processResults` walks the frame's
detections, sets a `found` flag per role from the handedness labels, resets
the role's counter on a found frame, then applies the counting logic below
and finally invokes `onHandsLost` whenever both detected flags are false. -/

/-- LOST_THRESHOLD: frames before considering a hand truly lost. -/
def LOST_THRESHOLD : ℕ := 5

/-- Presence fields of the debouncing tracker variant. -/
structure DebounceState where
  leftHandDetected : Bool
  rightHandDetected : Bool
  leftLostFrames : ℕ
  rightLostFrames : ℕ
deriving DecidableEq, Repr

/-- Constructor defaults of the debouncing variant: both roles undetected,
both counters zero. -/
def initialDebounce : DebounceState where
  leftHandDetected := false
  rightHandDetected := false
  leftLostFrames := 0
  rightLostFrames := 0

/-- Per-role presence update of the debouncing `_processResults`: a found
frame resets the counter to zero and marks the role detected immediately;
a missed frame increments the counter and clears the detected flag once the
counter has exceeded `LOST_THRESHOLD`. -/
def updatePresence (lost : ℕ) (det : Bool) (found : Bool) : ℕ × Bool :=
  if found then
    (0, true)
  else
    let l := lost + 1
    (l, if LOST_THRESHOLD < l then false else det)

/-- Presence/debounce portion of the debouncing `_processResults`, per
frame: `foundLeft` / `foundRight` say whether the frame's detections
assigned each role.  Returns the new state and whether `onHandsLost` was
invoked (the source fires it whenever both detected flags are false after
the update). -/
def stepDebounce (s : DebounceState) (foundLeft foundRight : Bool) :
    DebounceState × Bool :=
  let l := updatePresence s.leftLostFrames s.leftHandDetected foundLeft
  let r := updatePresence s.rightLostFrames s.rightHandDetected foundRight
  ({ leftHandDetected := l.2
     rightHandDetected := r.2
     leftLostFrames := l.1
     rightLostFrames := r.1 },
   !l.2 && !r.2)

/-- Fold of `stepDebounce` over a sequence of frames, each frame given by
its pair of found flags (left, right); events are discarded. -/
def runDebounce (s : DebounceState) (frames : List (Bool × Bool)) :
    DebounceState :=
  frames.foldl (fun st f => (stepDebounce st f.1 f.2).1) s

/-! Concrete inputs used by witnesses and counterexamples. -/

/-- Hand with every landmark at the image center. -/
def constLm : Landmarks := fun _ => ⟨1/2, 1/2⟩

/-- Hand whose middle/ring/pinky PIP joints (10, 14, 18) sit away from the
wrist while every other landmark, fingertips included, sits on the wrist:
all three fingers count as curled, so the strict gesture gate holds. -/
def curlLm : Landmarks := fun i =>
  if i = 10 ∨ i = 14 ∨ i = 18 then ⟨3/5, 1/2⟩ else ⟨1/2, 1/2⟩

/-- Hand with every landmark at (1/4, 1/4). -/
def lmA : Landmarks := fun _ => ⟨1/4, 1/4⟩

/-- Hand with every landmark at (3/4, 3/4). -/
def lmB : Landmarks := fun _ => ⟨3/4, 3/4⟩

/-- Hand with every landmark at (1/10, 1/2). -/
def lmFarLeft : Landmarks := fun _ => ⟨1/10, 1/2⟩

/-- Hand like `curlLm` but shifted to x = 9/10: far from `lmFarLeft` and
with the strict gesture gate holding. -/
def lmFarRight : Landmarks := fun i =>
  if i = 10 ∨ i = 14 ∨ i = 18 then ⟨97/100, 1/2⟩ else ⟨9/10, 1/2⟩

/-- Detection at the image center, labelled as the user's right hand. -/
def detCenter : HandDet := ⟨constLm, "Left", 0⟩

/-- Detection at (1/4, 1/4). -/
def detA : HandDet := ⟨lmA, "Left", 0⟩

/-- Detection at (3/4, 3/4). -/
def detB : HandDet := ⟨lmB, "Left", 0⟩

/-- Detection labelled "Right" (the user's left hand, after mirroring). -/
def detFarLeft : HandDet := ⟨lmFarLeft, "Right", 0⟩

/-- Detection labelled "Left" (the user's right hand, after mirroring),
with a raw pinch distance of 3/100. -/
def detFarRight : HandDet := ⟨lmFarRight, "Left", 3/100⟩

/-- Position window holding three samples (at capacity). -/
def wbp : List Pt := [⟨0, 0⟩, ⟨1, 0⟩, ⟨1, 1⟩]

/-- Scalar window holding three samples (at capacity). -/
def wbq : List ℚ := [1, 2, 3]

/-- Arithmetic mean of a window of scalar samples, the spec's description
of a smoothed signal's value. -/
def meanQ (l : List ℚ) : ℚ := l.sum / (l.length : ℚ)

/-- Componentwise arithmetic mean of a window of position samples. -/
def meanPt (l : List Pt) : Pt :=
  ⟨(l.map Pt.x).sum / (l.length : ℚ), (l.map Pt.y).sum / (l.length : ℚ)⟩

/-! ## Helper lemmas -/

theorem processRightHand_isZooming (s : TrackerState) (lm : Landmarks) (d : ℚ) :
    (processRightHand s lm d).1.isZooming
      = (pinchTransition s.isZooming s.startPinchDistance
          (smoothValue s.pinchBuffer d).2
          (decide (CLUTCH_VELOCITY_THRESHOLD
            < (smoothValue s.pinchBuffer d).2 - s.prevPinchDistance))
          (strictGestureValid lm)).1 := rfl

theorem processRightHand_startDist (s : TrackerState) (lm : Landmarks) (d : ℚ) :
    (processRightHand s lm d).1.startPinchDistance
      = (pinchTransition s.isZooming s.startPinchDistance
          (smoothValue s.pinchBuffer d).2
          (decide (CLUTCH_VELOCITY_THRESHOLD
            < (smoothValue s.pinchBuffer d).2 - s.prevPinchDistance))
          (strictGestureValid lm)).2 := rfl

theorem processRightHand_event_isZooming (s : TrackerState) (lm : Landmarks) (d : ℚ) :
    (processRightHand s lm d).2.isZooming = (processRightHand s lm d).1.isZooming := rfl

theorem processRightHand_scaleFactor (s : TrackerState) (lm : Landmarks) (d : ℚ) :
    (processRightHand s lm d).2.scaleFactor
      = (if (processRightHand s lm d).1.isZooming
            && decide ((1:ℚ)/1000 < (processRightHand s lm d).1.startPinchDistance)
         then (smoothValue s.pinchBuffer d).2
                / (processRightHand s lm d).1.startPinchDistance
         else 1) := rfl

theorem pinchTransition_idle_fst (st pd : ℚ) (op g : Bool) :
    (pinchTransition false st pd op g).1 = (decide (pd < PINCH_THRESHOLD) && g) := by
  by_cases h : pd < PINCH_THRESHOLD <;> cases g <;> simp [pinchTransition, h]

theorem pinchTransition_idle_snd (st pd : ℚ) (op g : Bool) :
    (pinchTransition false st pd op g).2
      = (if decide (pd < PINCH_THRESHOLD) && g then pd else st) := by
  by_cases h : pd < PINCH_THRESHOLD <;> cases g <;> simp [pinchTransition, h]

theorem pinchTransition_engaged_fst (st pd : ℚ) (op g : Bool) :
    (pinchTransition true st pd op g).1
      = !(decide (PINCH_RELEASE_THRESHOLD < pd) || op || !g) := by
  by_cases h : PINCH_RELEASE_THRESHOLD < pd <;> cases op <;> cases g <;>
    simp [pinchTransition, h]

theorem pinchTransition_engaged_snd (st pd : ℚ) (op g : Bool) :
    (pinchTransition true st pd op g).2 = st := by
  by_cases h : PINCH_RELEASE_THRESHOLD < pd <;> cases op <;> cases g <;>
    simp [pinchTransition, h]

theorem smoothPosition_fst (b : List Pt) (p : Pt) :
    (smoothPosition b p).1
      = if BUFFER_SIZE_POSITION < (b ++ [p]).length
        then (b ++ [p]).drop 1 else (b ++ [p]) := rfl

theorem smoothPosition_snd (b : List Pt) (p : Pt) :
    (smoothPosition b p).2 = meanPt (smoothPosition b p).1 := rfl

theorem smoothValue_fst (b : List ℚ) (v : ℚ) :
    (smoothValue b v).1
      = if BUFFER_SIZE_PINCH < (b ++ [v]).length
        then (b ++ [v]).drop 1 else (b ++ [v]) := rfl

theorem smoothValue_snd (b : List ℚ) (v : ℚ) :
    (smoothValue b v).2 = meanQ (smoothValue b v).1 := rfl

theorem processResults_two_close (s : TrackerState) (h0 h1 : HandDet)
    (hsep : ((calculatePalmCenter h0.lm).x - (calculatePalmCenter h1.lm).x)
              * ((calculatePalmCenter h0.lm).x - (calculatePalmCenter h1.lm).x)
          + ((calculatePalmCenter h0.lm).y - (calculatePalmCenter h1.lm).y)
              * ((calculatePalmCenter h0.lm).y - (calculatePalmCenter h1.lm).y)
          < MIN_HAND_SEPARATION * MIN_HAND_SEPARATION) :
    processResults s (.two h0 h1) = processResults s (.one h0) := by
  simp only [processResults]
  rw [if_pos hsep]

theorem smoothValue_nil (v : ℚ) : smoothValue [] v = ([v], v) := by
  norm_num [smoothValue, BUFFER_SIZE_PINCH]

theorem smoothPosition_nil (p : Pt) : smoothPosition [] p = ([p], p) := by
  norm_num [smoothPosition, BUFFER_SIZE_POSITION]

theorem gate_curlLm : strictGestureValid curlLm = true := by
  norm_num [strictGestureValid, isFingerClosed, curlLm, decide_eq_true_eq]

theorem gate_constLm : strictGestureValid constLm = false := by
  norm_num [strictGestureValid, isFingerClosed, constLm]

theorem engage_example_isZooming :
    (processRightHand initialState curlLm (3/100)).1.isZooming = true := by
  rw [processRightHand_isZooming]
  simp only [initialState, smoothValue_nil, gate_curlLm]
  rw [pinchTransition_idle_fst]
  norm_num [PINCH_THRESHOLD, decide_eq_true_eq]

theorem engage_example_startDist :
    (processRightHand initialState curlLm (3/100)).1.startPinchDistance = 3/100 := by
  rw [processRightHand_startDist]
  simp only [initialState, smoothValue_nil, gate_curlLm]
  rw [pinchTransition_idle_snd, if_pos]
  norm_num [PINCH_THRESHOLD, decide_eq_true_eq]

theorem processLeftHand_rightHandActive (s : TrackerState) (lm : Landmarks) :
    (processLeftHand s lm).1.rightHandActive = s.rightHandActive := rfl

theorem processLeftHand_prevRightPalm (s : TrackerState) (lm : Landmarks) :
    (processLeftHand s lm).1.prevRightPalm = s.prevRightPalm := rfl

theorem processRightHand_rightPalm (s : TrackerState) (lm : Landmarks) (d : ℚ) :
    (processRightHand s lm d).1.rightPalm
      = (smoothPosition s.rightPalmBuffer (calculatePalmCenter lm)).2 := rfl

theorem processRightHand_pinchDist (s : TrackerState) (lm : Landmarks) (d : ℚ) :
    (processRightHand s lm d).1.pinchDistance = (smoothValue s.pinchBuffer d).2 := rfl

theorem processRightHand_active (s : TrackerState) (lm : Landmarks) (d : ℚ) :
    (processRightHand s lm d).1.rightHandActive = true := rfl

theorem processRightHand_prevPalm (s : TrackerState) (lm : Landmarks) (d : ℚ) :
    (processRightHand s lm d).1.prevRightPalm
      = some (processRightHand s lm d).1.rightPalm := rfl

theorem processRightHand_event_palm (s : TrackerState) (lm : Landmarks) (d : ℚ) :
    (processRightHand s lm d).2.palmCenter = (processRightHand s lm d).1.rightPalm := rfl

theorem processRightHand_delta_inactive (s : TrackerState) (lm : Landmarks) (d : ℚ)
    (ha : s.rightHandActive = false) :
    (processRightHand s lm d).2.rotationDelta = Pt.mk 0 0 := by
  simp only [processRightHand, ha]

theorem processRightHand_delta_noprev (s : TrackerState) (lm : Landmarks) (d : ℚ)
    (hp : s.prevRightPalm = none) :
    (processRightHand s lm d).2.rotationDelta = Pt.mk 0 0 := by
  cases ha : s.rightHandActive <;> simp only [processRightHand, ha, hp]

theorem processRightHand_delta_active (s : TrackerState) (lm : Landmarks) (d : ℚ)
    (prev : Pt) (ha : s.rightHandActive = true) (hp : s.prevRightPalm = some prev) :
    (processRightHand s lm d).2.rotationDelta
      = Pt.mk ((processRightHand s lm d).1.rightPalm.x - prev.x)
              ((processRightHand s lm d).1.rightPalm.y - prev.y) := by
  simp only [processRightHand, ha, hp]

theorem processResults_one_leftPalmBuffer (s : TrackerState) (h : HandDet) :
    (processResults s (.one h)).1.leftPalmBuffer
      = (smoothPosition s.leftPalmBuffer (calculatePalmCenter h.lm)).1 := rfl

theorem processResults_one_leftEvent (s : TrackerState) (h : HandDet) :
    (processResults s (.one h)).2.leftEvent
      = some (smoothPosition s.leftPalmBuffer (calculatePalmCenter h.lm)).2 := rfl

theorem processResults_nothing_leftPalmBuffer (s : TrackerState) :
    (processResults s .nothing).1.leftPalmBuffer = s.leftPalmBuffer := rfl

theorem processResults_two_far_rightEvent (s : TrackerState) (h0 h1 : HandDet)
    (hc : ¬ (((calculatePalmCenter h0.lm).x - (calculatePalmCenter h1.lm).x)
              * ((calculatePalmCenter h0.lm).x - (calculatePalmCenter h1.lm).x)
          + ((calculatePalmCenter h0.lm).y - (calculatePalmCenter h1.lm).y)
              * ((calculatePalmCenter h0.lm).y - (calculatePalmCenter h1.lm).y)
          < MIN_HAND_SEPARATION * MIN_HAND_SEPARATION)) :
    (processResults s (.two h0 h1)).2.rightEvent
      = some (processRightHand
          (processLeftHand
            { s with handsCount := 2, leftHandDetected := true,
                     rightHandDetected := true }
            (resolveTwo h0 h1 (calculatePalmCenter h0.lm)
              (calculatePalmCenter h1.lm)).1.lm).1
          (resolveTwo h0 h1 (calculatePalmCenter h0.lm)
            (calculatePalmCenter h1.lm)).2.lm
          (resolveTwo h0 h1 (calculatePalmCenter h0.lm)
            (calculatePalmCenter h1.lm)).2.pinchDist).2 := by
  simp only [processResults]
  rw [if_neg hc]

/-! ## Claims -/


/-- C1: the pinch-zoom state machine, updated once per processed
secondary-hand frame, goes Idle → Engaged exactly when the smoothed pinch
distance is below the engage threshold and the curl gate holds, recording
the smoothed distance as the zoom-start reference on entry (and leaving the
reference untouched otherwise); and goes Engaged → Idle exactly when the
smoothed distance is above the release threshold, or the frame-to-frame
distance velocity exceeds the clutch threshold, or the gate fails, leaving
the reference untouched while Engaged. -/
theorem pinch_state_machine_spec (s : TrackerState) (lm : Landmarks) (d : ℚ) :
    (s.isZooming = false →
      ((processRightHand s lm d).1.isZooming = true
          ↔ ((smoothValue s.pinchBuffer d).2 < PINCH_THRESHOLD
              ∧ strictGestureValid lm = true))
      ∧ ((processRightHand s lm d).1.isZooming = true →
          (processRightHand s lm d).1.startPinchDistance
            = (smoothValue s.pinchBuffer d).2)
      ∧ ((processRightHand s lm d).1.isZooming = false →
          (processRightHand s lm d).1.startPinchDistance = s.startPinchDistance))
    ∧ (s.isZooming = true →
      ((processRightHand s lm d).1.isZooming = false
          ↔ (PINCH_RELEASE_THRESHOLD < (smoothValue s.pinchBuffer d).2
              ∨ CLUTCH_VELOCITY_THRESHOLD
                  < (smoothValue s.pinchBuffer d).2 - s.prevPinchDistance
              ∨ strictGestureValid lm = false))
      ∧ (processRightHand s lm d).1.startPinchDistance = s.startPinchDistance) := by
  simp only [processRightHand_isZooming, processRightHand_startDist]
  constructor
  · intro hz
    rw [hz]
    refine ⟨?_, ?_, ?_⟩
    · rw [pinchTransition_idle_fst]
      simp [Bool.and_eq_true, decide_eq_true_eq]
    · intro h1
      rw [pinchTransition_idle_fst] at h1
      rw [pinchTransition_idle_snd, if_pos h1]
    · intro h1
      rw [pinchTransition_idle_fst] at h1
      rw [pinchTransition_idle_snd, if_neg]
      simp [h1]
  · intro hz
    rw [hz]
    refine ⟨?_, pinchTransition_engaged_snd _ _ _ _⟩
    rw [pinchTransition_engaged_fst]
    by_cases h1 : PINCH_RELEASE_THRESHOLD < (smoothValue s.pinchBuffer d).2 <;>
      by_cases h2 : CLUTCH_VELOCITY_THRESHOLD
          < (smoothValue s.pinchBuffer d).2 - s.prevPinchDistance <;>
      cases hg : strictGestureValid lm <;>
      simp [h1, h2, hg]

/-- Witness for C1: from the initial state, a frame with curled fingers and
a raw pinch distance of 3/100 engages the zoom and records 3/100 as the
zoom-start reference. -/
theorem pinch_state_machine_spec_witness :
    (processRightHand initialState curlLm (3/100)).1.isZooming = true
    ∧ (processRightHand initialState curlLm (3/100)).1.startPinchDistance = 3/100 := by
  have h := (pinch_state_machine_spec initialState curlLm (3/100)).1 rfl
  have hb : initialState.pinchBuffer = ([] : List ℚ) := rfl
  have hpd : (smoothValue initialState.pinchBuffer ((3:ℚ)/100)).2 = 3/100 := by
    rw [hb, smoothValue_nil]
  have hz : (processRightHand initialState curlLm (3/100)).1.isZooming = true :=
    h.1.mpr ⟨by rw [hpd]; norm_num [PINCH_THRESHOLD], gate_curlLm⟩
  exact ⟨hz, by rw [h.2.1 hz, hpd]⟩

/-- C6: while the machine is Engaged with a zoom-start reference above the
near-zero guard, the emitted scale factor is the smoothed pinch distance
divided by the reference; in particular it is exactly 1 when the smoothed
distance equals the reference. -/
theorem engaged_scale_factor (s : TrackerState) (lm : Landmarks) (d : ℚ) :
    ((processRightHand s lm d).2.isZooming = true →
      (1:ℚ)/1000 < (processRightHand s lm d).1.startPinchDistance →
      (processRightHand s lm d).2.scaleFactor
        = (smoothValue s.pinchBuffer d).2
            / (processRightHand s lm d).1.startPinchDistance)
    ∧ ((processRightHand s lm d).2.isZooming = true →
      (1:ℚ)/1000 < (processRightHand s lm d).1.startPinchDistance →
      (smoothValue s.pinchBuffer d).2
          = (processRightHand s lm d).1.startPinchDistance →
      (processRightHand s lm d).2.scaleFactor = 1) := by
  have hsc := processRightHand_scaleFactor s lm d
  have hiz := processRightHand_event_isZooming s lm d
  constructor
  · intro h1 h2
    rw [hsc, if_pos]
    rw [← hiz, h1, decide_eq_true h2, Bool.and_self]
  · intro h1 h2 h3
    rw [hsc, if_pos]
    · rw [h3]
      exact div_self (ne_of_gt (lt_trans (by norm_num) h2))
    · rw [← hiz, h1, decide_eq_true h2, Bool.and_self]

/-- Witness for C6: a frame that engages the zoom from the initial state
records the current distance as the reference, so its scale factor is 1. -/
theorem engaged_scale_factor_witness :
    (processRightHand initialState curlLm (3/100)).2.scaleFactor = 1 := by
  have hb : initialState.pinchBuffer = ([] : List ℚ) := rfl
  have hpd : (smoothValue initialState.pinchBuffer ((3:ℚ)/100)).2 = 3/100 := by
    rw [hb, smoothValue_nil]
  refine (engaged_scale_factor initialState curlLm (3/100)).2 ?_ ?_ ?_
  · rw [processRightHand_event_isZooming]
    exact engage_example_isZooming
  · rw [engage_example_startDist]
    norm_num
  · rw [engage_example_startDist, hpd]

/-- C10: the emitted scale factor is exactly 1 whenever the machine is Idle
after the frame's transition, and whenever it is Engaged but the zoom-start
reference is at most the 1/1000 guard. -/
theorem scale_factor_one_outside_valid_zoom (s : TrackerState) (lm : Landmarks) (d : ℚ) :
    ((processRightHand s lm d).2.isZooming = false →
      (processRightHand s lm d).2.scaleFactor = 1)
    ∧ ((processRightHand s lm d).2.isZooming = true →
      (processRightHand s lm d).1.startPinchDistance ≤ (1:ℚ)/1000 →
      (processRightHand s lm d).2.scaleFactor = 1) := by
  have hsc := processRightHand_scaleFactor s lm d
  have hiz := processRightHand_event_isZooming s lm d
  constructor
  · intro h1
    rw [hsc, if_neg]
    rw [← hiz, h1]
    simp
  · intro h1 h2
    rw [hsc, if_neg]
    rw [decide_eq_false (not_lt.mpr h2)]
    simp

/-- Witness for C10: with open fingers the gate fails, the machine stays
Idle, and the emitted scale factor is 1. -/
theorem scale_factor_one_outside_valid_zoom_witness :
    (processRightHand initialState constLm 0).2.isZooming = false
    ∧ (processRightHand initialState constLm 0).2.scaleFactor = 1 := by
  have hz : (processRightHand initialState constLm 0).2.isZooming = false := by
    rw [processRightHand_event_isZooming, processRightHand_isZooming]
    simp only [initialState]
    rw [pinchTransition_idle_fst, gate_constLm, Bool.and_false]
  exact ⟨hz, (scale_factor_one_outside_valid_zoom initialState constLm 0).1 hz⟩

/-- C2: a frame with exactly one detection assigns it to the primary (left)
role whatever its handedness label says, and reports the secondary (right)
role absent; a frame with zero detections leaves both roles unassigned. -/
theorem single_detection_primary_role (s : TrackerState) (h : HandDet) :
    (processResults s (.one h)).1.leftHandDetected = true
    ∧ (processResults s (.one h)).1.rightHandDetected = false
    ∧ (processResults s (.one h)).2.leftEvent
        = some (smoothPosition s.leftPalmBuffer (calculatePalmCenter h.lm)).2
    ∧ (processResults s (.one h)).2.rightEvent = none
    ∧ (processResults s FrameObservation.nothing).1.leftHandDetected = false
    ∧ (processResults s FrameObservation.nothing).1.rightHandDetected = false
    ∧ (processResults s FrameObservation.nothing).2.leftEvent = none
    ∧ (processResults s FrameObservation.nothing).2.rightEvent = none :=
  ⟨rfl, rfl, rfl, rfl, rfl, rfl, rfl, rfl⟩

/-- C3: a frame with two detections whose raw palm centers are separated by
less than the minimum-separation threshold (stated on squared distances,
which is equivalent for the nonnegative Euclidean distance) is treated as a
split-artifact: only the primary (left) role is assigned, from the first of
the two detections, and the secondary (right) role is reported absent,
whatever the handedness labels say. -/
theorem close_pair_primary_only (s : TrackerState) (h0 h1 : HandDet)
    (hsep : ((calculatePalmCenter h0.lm).x - (calculatePalmCenter h1.lm).x)
              * ((calculatePalmCenter h0.lm).x - (calculatePalmCenter h1.lm).x)
          + ((calculatePalmCenter h0.lm).y - (calculatePalmCenter h1.lm).y)
              * ((calculatePalmCenter h0.lm).y - (calculatePalmCenter h1.lm).y)
          < MIN_HAND_SEPARATION * MIN_HAND_SEPARATION) :
    (processResults s (.two h0 h1)).1.leftHandDetected = true
    ∧ (processResults s (.two h0 h1)).1.rightHandDetected = false
    ∧ (processResults s (.two h0 h1)).2.leftEvent
        = some (smoothPosition s.leftPalmBuffer (calculatePalmCenter h0.lm)).2
    ∧ (processResults s (.two h0 h1)).2.rightEvent = none := by
  rw [processResults_two_close s h0 h1 hsep]
  exact ⟨rfl, rfl, rfl, rfl⟩

/-- Witness for C3: two co-located detections at the image center are
resolved as a single primary hand. -/
theorem close_pair_primary_only_witness :
    (processResults initialState (.two detCenter detCenter)).1.leftHandDetected = true
    ∧ (processResults initialState (.two detCenter detCenter)).1.rightHandDetected = false
    ∧ (processResults initialState (.two detCenter detCenter)).2.leftEvent
        = some (smoothPosition initialState.leftPalmBuffer
            (calculatePalmCenter detCenter.lm)).2
    ∧ (processResults initialState (.two detCenter detCenter)).2.rightEvent = none :=
  close_pair_primary_only initialState detCenter detCenter
    (by norm_num [calculatePalmCenter, detCenter, constLm, palmIndices,
      MIN_HAND_SEPARATION])

/-- C9: each smoothing window is a bounded FIFO: a push keeps the window at
or below its fixed capacity, discards the oldest sample exactly when the
capacity would be exceeded, and returns the arithmetic mean of the samples
then in the window. -/
theorem smoothing_window_bounded_fifo (bp : List Pt) (p : Pt) (bq : List ℚ) (v : ℚ)
    (hbp : bp.length ≤ BUFFER_SIZE_POSITION) (hbq : bq.length ≤ BUFFER_SIZE_PINCH) :
    (smoothPosition bp p).1.length ≤ BUFFER_SIZE_POSITION
    ∧ (smoothPosition bp p).1 = (bp ++ [p]).drop (bp.length + 1 - BUFFER_SIZE_POSITION)
    ∧ (smoothPosition bp p).2 = meanPt (smoothPosition bp p).1
    ∧ (smoothValue bq v).1.length ≤ BUFFER_SIZE_PINCH
    ∧ (smoothValue bq v).1 = (bq ++ [v]).drop (bq.length + 1 - BUFFER_SIZE_PINCH)
    ∧ (smoothValue bq v).2 = meanQ (smoothValue bq v).1 := by
  refine ⟨?_, ?_, smoothPosition_snd bp p, ?_, ?_, smoothValue_snd bq v⟩
  · rw [smoothPosition_fst]
    by_cases hc : BUFFER_SIZE_POSITION < (bp ++ [p]).length
    · rw [if_pos hc]
      simp only [List.length_drop, List.length_append, List.length_singleton,
        BUFFER_SIZE_POSITION] at *
      omega
    · rw [if_neg hc]
      simp only [List.length_append, List.length_singleton,
        BUFFER_SIZE_POSITION] at *
      omega
  · rw [smoothPosition_fst]
    by_cases hc : BUFFER_SIZE_POSITION < (bp ++ [p]).length
    · rw [if_pos hc]
      have h3 : bp.length + 1 - BUFFER_SIZE_POSITION = 1 := by
        simp only [List.length_append, List.length_singleton,
          BUFFER_SIZE_POSITION] at *
        omega
      rw [h3]
    · rw [if_neg hc]
      have h3 : bp.length + 1 - BUFFER_SIZE_POSITION = 0 := by
        simp only [List.length_append, List.length_singleton,
          BUFFER_SIZE_POSITION] at *
        omega
      rw [h3, List.drop_zero]
  · rw [smoothValue_fst]
    by_cases hc : BUFFER_SIZE_PINCH < (bq ++ [v]).length
    · rw [if_pos hc]
      simp only [List.length_drop, List.length_append, List.length_singleton,
        BUFFER_SIZE_PINCH] at *
      omega
    · rw [if_neg hc]
      simp only [List.length_append, List.length_singleton,
        BUFFER_SIZE_PINCH] at *
      omega
  · rw [smoothValue_fst]
    by_cases hc : BUFFER_SIZE_PINCH < (bq ++ [v]).length
    · rw [if_pos hc]
      have h3 : bq.length + 1 - BUFFER_SIZE_PINCH = 1 := by
        simp only [List.length_append, List.length_singleton,
          BUFFER_SIZE_PINCH] at *
        omega
      rw [h3]
    · rw [if_neg hc]
      have h3 : bq.length + 1 - BUFFER_SIZE_PINCH = 0 := by
        simp only [List.length_append, List.length_singleton,
          BUFFER_SIZE_PINCH] at *
        omega
      rw [h3, List.drop_zero]

/-- Witness for C9: pushing a fourth sample into a full three-sample window
evicts the oldest sample and returns the mean of the remaining window. -/
theorem smoothing_window_bounded_fifo_witness :
    (smoothPosition wbp (Pt.mk 1 2)).1.length ≤ BUFFER_SIZE_POSITION
    ∧ (smoothPosition wbp (Pt.mk 1 2)).1
        = (wbp ++ [Pt.mk 1 2]).drop (wbp.length + 1 - BUFFER_SIZE_POSITION)
    ∧ (smoothPosition wbp (Pt.mk 1 2)).2 = meanPt (smoothPosition wbp (Pt.mk 1 2)).1
    ∧ (smoothValue wbq 6).1.length ≤ BUFFER_SIZE_PINCH
    ∧ (smoothValue wbq 6).1 = (wbq ++ [6]).drop (wbq.length + 1 - BUFFER_SIZE_PINCH)
    ∧ (smoothValue wbq 6).2 = meanQ (smoothValue wbq 6).1 :=
  smoothing_window_bounded_fifo wbp (Pt.mk 1 2) wbq 6
    (by norm_num [wbp, BUFFER_SIZE_POSITION])
    (by norm_num [wbq, BUFFER_SIZE_PINCH])

/-- C7: the rotation delta emitted for the secondary (right) role is
exactly zero on the first processed right-hand frame after the role was
absent (every frame that emits no right-hand event leaves the role marked
inactive with no previous palm), and on a consecutive right-hand frame it
equals the current smoothed palm position minus the previous frame's
smoothed palm position. -/
theorem rotation_delta_spec :
    (∀ (s : TrackerState) (lm : Landmarks) (d : ℚ),
        s.rightHandActive = false ∨ s.prevRightPalm = none →
        (processRightHand s lm d).2.rotationDelta = Pt.mk 0 0)
    ∧ (∀ (s : TrackerState) (obs : FrameObservation),
        (processResults s obs).2.rightEvent = none →
        (processResults s obs).1.rightHandActive = false
        ∧ (processResults s obs).1.prevRightPalm = none)
    ∧ (∀ (s : TrackerState) (lm lm' : Landmarks) (d d' : ℚ),
        (processRightHand (processRightHand s lm d).1 lm' d').2.rotationDelta
          = Pt.mk
              ((processRightHand (processRightHand s lm d).1 lm' d').2.palmCenter.x
                - (processRightHand s lm d).2.palmCenter.x)
              ((processRightHand (processRightHand s lm d).1 lm' d').2.palmCenter.y
                - (processRightHand s lm d).2.palmCenter.y)) := by
  refine ⟨?_, ?_, ?_⟩
  · intro s lm d h
    cases h with
    | inl ha => exact processRightHand_delta_inactive s lm d ha
    | inr hp => exact processRightHand_delta_noprev s lm d hp
  · intro s obs hev
    cases obs with
    | nothing => exact ⟨rfl, rfl⟩
    | one h0 => exact ⟨rfl, rfl⟩
    | two h0 h1 =>
        by_cases hc : ((calculatePalmCenter h0.lm).x - (calculatePalmCenter h1.lm).x)
              * ((calculatePalmCenter h0.lm).x - (calculatePalmCenter h1.lm).x)
            + ((calculatePalmCenter h0.lm).y - (calculatePalmCenter h1.lm).y)
              * ((calculatePalmCenter h0.lm).y - (calculatePalmCenter h1.lm).y)
            < MIN_HAND_SEPARATION * MIN_HAND_SEPARATION
        · rw [processResults_two_close s h0 h1 hc]
          exact ⟨rfl, rfl⟩
        · rw [processResults_two_far_rightEvent s h0 h1 hc] at hev
          exact absurd hev (by simp)
  · intro s lm lm' d d'
    rw [processRightHand_delta_active (processRightHand s lm d).1 lm' d'
      ((processRightHand s lm d).1.rightPalm)
      (processRightHand_active s lm d) (processRightHand_prevPalm s lm d)]
    rfl

/-- Witness for C7: the first right-hand frame after the initial (absent)
state emits a zero rotation delta. -/
theorem rotation_delta_spec_witness :
    (processRightHand initialState lmFarRight (3/100)).2.rotationDelta = Pt.mk 0 0 :=
  rotation_delta_spec.1 initialState lmFarRight (3/100) (Or.inl rfl)

/-- Counterexample to C8 as stated: the primary (left) palm window is not
cleared across a zero-detection gap.  The left hand is seen at (1/4, 1/4),
disappears for one frame, and reappears at (3/4, 3/4); the first emitted
smoothed position after reacquisition is (1/2, 1/2), a blend with the stale
pre-absence sample, not the fresh raw sample (3/4, 3/4). -/
theorem buffer_reset_counterexample :
    (processResults ((processResults ((processResults initialState
        (.one detA)).1) .nothing).1) (.one detB)).2.leftEvent
      = some (Pt.mk (1/2) (1/2))
    ∧ calculatePalmCenter detB.lm = Pt.mk (3/4) (3/4)
    ∧ Pt.mk ((1:ℚ)/2) ((1:ℚ)/2) ≠ Pt.mk (3/4) (3/4) := by
  have hA : calculatePalmCenter detA.lm = Pt.mk (1/4) (1/4) := by
    norm_num [calculatePalmCenter, detA, lmA, palmIndices, Pt.mk.injEq]
  have hB : calculatePalmCenter detB.lm = Pt.mk (3/4) (3/4) := by
    norm_num [calculatePalmCenter, detB, lmB, palmIndices, Pt.mk.injEq]
  have h1 : (processResults initialState (.one detA)).1.leftPalmBuffer
      = [Pt.mk (1/4) (1/4)] := by
    rw [processResults_one_leftPalmBuffer, hA,
      show initialState.leftPalmBuffer = ([] : List Pt) from rfl, smoothPosition_nil]
  have h2 : (processResults ((processResults initialState (.one detA)).1)
      .nothing).1.leftPalmBuffer = [Pt.mk (1/4) (1/4)] := by
    rw [processResults_nothing_leftPalmBuffer, h1]
  refine ⟨?_, hB, by norm_num [Pt.mk.injEq]⟩
  rw [processResults_one_leftEvent, h2, hB]
  norm_num [smoothPosition, BUFFER_SIZE_POSITION, Pt.mk.injEq]

/-- C8 as amended: the engine clears only the secondary-role windows, and
only on frames observing exactly one detection or a below-separation pair;
a zero-detection frame clears nothing and the primary-role window is never
cleared.  When a window is empty the next smoothed value does equal the
fresh raw sample. -/
theorem buffer_reset_amended :
    (∀ (s : TrackerState) (h : HandDet),
        (processResults s (.one h)).1.rightPalmBuffer = []
        ∧ (processResults s (.one h)).1.pinchBuffer = [])
    ∧ (∀ (s : TrackerState) (h0 h1 : HandDet),
        ((calculatePalmCenter h0.lm).x - (calculatePalmCenter h1.lm).x)
            * ((calculatePalmCenter h0.lm).x - (calculatePalmCenter h1.lm).x)
          + ((calculatePalmCenter h0.lm).y - (calculatePalmCenter h1.lm).y)
            * ((calculatePalmCenter h0.lm).y - (calculatePalmCenter h1.lm).y)
          < MIN_HAND_SEPARATION * MIN_HAND_SEPARATION →
        (processResults s (.two h0 h1)).1.rightPalmBuffer = []
        ∧ (processResults s (.two h0 h1)).1.pinchBuffer = [])
    ∧ (∀ (s : TrackerState) (lm : Landmarks) (d : ℚ),
        s.rightPalmBuffer = [] →
        (processRightHand s lm d).1.rightPalm = calculatePalmCenter lm)
    ∧ (∀ (s : TrackerState) (lm : Landmarks) (d : ℚ),
        s.pinchBuffer = [] →
        (processRightHand s lm d).1.pinchDistance = d)
    ∧ (∀ (s : TrackerState),
        (processResults s .nothing).1.leftPalmBuffer = s.leftPalmBuffer
        ∧ (processResults s .nothing).1.rightPalmBuffer = s.rightPalmBuffer
        ∧ (processResults s .nothing).1.pinchBuffer = s.pinchBuffer) := by
  refine ⟨fun s h => ⟨rfl, rfl⟩, ?_, ?_, ?_, fun s => ⟨rfl, rfl, rfl⟩⟩
  · intro s h0 h1 hsep
    rw [processResults_two_close s h0 h1 hsep]
    exact ⟨rfl, rfl⟩
  · intro s lm d hb
    rw [processRightHand_rightPalm, hb, smoothPosition_nil]
  · intro s lm d hb
    rw [processRightHand_pinchDist, hb, smoothValue_nil]

/-- Counterexample to C5 as stated: a hand is live on frame 1, both roles
are absent on frames 2 and 3, and the engine invokes the hands-lost
callback on frame 2 and again on frame 3, so the event is not restricted to
the absent-transition edge. -/
theorem hands_lost_counterexample :
    (processResults initialState (.one detA)).1.leftHandDetected = true
    ∧ (processResults ((processResults initialState (.one detA)).1)
        .nothing).2.handsLost = true
    ∧ (processResults ((processResults ((processResults initialState
        (.one detA)).1) .nothing).1) .nothing).2.handsLost = true :=
  ⟨rfl, rfl, rfl⟩

/-- C5 as amended: the engine invokes the hands-lost callback on every
frame in which both roles end up reported absent — in the resolver variant
that is exactly every zero-detection frame, and in the debouncing variant
every frame whose updated detected flags are both false — re-firing on
every such frame; one-shot edge behaviour is left to the consumer. -/
theorem hands_lost_amended :
    (∀ (s : TrackerState) (obs : FrameObservation),
        (processResults s obs).2.handsLost = true ↔ obs = FrameObservation.nothing)
    ∧ (∀ (t : DebounceState) (fL fR : Bool),
        (stepDebounce t fL fR).2 = true
          ↔ ((stepDebounce t fL fR).1.leftHandDetected = false
              ∧ (stepDebounce t fL fR).1.rightHandDetected = false)) := by
  constructor
  · intro s obs
    cases obs with
    | nothing => simp [show (processResults s .nothing).2.handsLost = true from rfl]
    | one h0 => simp [show (processResults s (.one h0)).2.handsLost = false from rfl]
    | two h0 h1 =>
        by_cases hc : ((calculatePalmCenter h0.lm).x - (calculatePalmCenter h1.lm).x)
              * ((calculatePalmCenter h0.lm).x - (calculatePalmCenter h1.lm).x)
            + ((calculatePalmCenter h0.lm).y - (calculatePalmCenter h1.lm).y)
              * ((calculatePalmCenter h0.lm).y - (calculatePalmCenter h1.lm).y)
            < MIN_HAND_SEPARATION * MIN_HAND_SEPARATION
        · rw [processResults_two_close s h0 h1 hc]
          simp [show (processResults s (.one h0)).2.handsLost = false from rfl]
        · have hf : (processResults s (.two h0 h1)).2.handsLost = false := by
            simp only [processResults]
            rw [if_neg hc]
          simp [hf]
  · intro t fL fR
    simp [stepDebounce, Bool.and_eq_true, Bool.not_eq_true']

theorem runDebounce_nil (t : DebounceState) : runDebounce t [] = t := rfl

theorem runDebounce_cons (t : DebounceState) (f : Bool × Bool)
    (fs : List (Bool × Bool)) :
    runDebounce t (f :: fs) = runDebounce (stepDebounce t f.1 f.2).1 fs := rfl

theorem stepDebounce_leftLost (t : DebounceState) (fL fR : Bool) :
    (stepDebounce t fL fR).1.leftLostFrames
      = (updatePresence t.leftLostFrames t.leftHandDetected fL).1 := rfl

theorem stepDebounce_leftDet (t : DebounceState) (fL fR : Bool) :
    (stepDebounce t fL fR).1.leftHandDetected
      = (updatePresence t.leftLostFrames t.leftHandDetected fL).2 := rfl

theorem stepDebounce_rightLost (t : DebounceState) (fL fR : Bool) :
    (stepDebounce t fL fR).1.rightLostFrames
      = (updatePresence t.rightLostFrames t.rightHandDetected fR).1 := rfl

theorem stepDebounce_rightDet (t : DebounceState) (fL fR : Bool) :
    (stepDebounce t fL fR).1.rightHandDetected
      = (updatePresence t.rightLostFrames t.rightHandDetected fR).2 := rfl

theorem updatePresence_miss_fst (lost : ℕ) (det : Bool) :
    (updatePresence lost det false).1 = lost + 1 := rfl

theorem updatePresence_miss_snd (lost : ℕ) (det : Bool) :
    (updatePresence lost det false).2
      = if LOST_THRESHOLD < lost + 1 then false else det := rfl

theorem updatePresence_step_det (l : ℕ) :
    (if LOST_THRESHOLD < l + 1 then false else decide (l ≤ LOST_THRESHOLD))
      = decide (l + 1 ≤ LOST_THRESHOLD) := by
  by_cases h5 : LOST_THRESHOLD < l + 1
  · rw [if_pos h5]
    exact (decide_eq_false (by omega)).symm
  · rw [if_neg h5, decide_eq_true (show l ≤ LOST_THRESHOLD by omega),
      decide_eq_true (show l + 1 ≤ LOST_THRESHOLD by omega)]

theorem debounce_left_missRun (rs : List Bool) :
    ∀ (t : DebounceState) (l : ℕ),
      t.leftLostFrames = l → t.leftHandDetected = decide (l ≤ LOST_THRESHOLD) →
      (runDebounce t (rs.map fun r => (false, r))).leftHandDetected
        = decide (l + rs.length ≤ LOST_THRESHOLD) := by
  induction rs with
  | nil =>
      intro t l h1 h2
      simpa [runDebounce_nil] using h2
  | cons r rs ih =>
      intro t l h1 h2
      rw [List.map_cons, runDebounce_cons]
      have hl : (stepDebounce t false r).1.leftLostFrames = l + 1 := by
        rw [stepDebounce_leftLost, h1, updatePresence_miss_fst]
      have hd : (stepDebounce t false r).1.leftHandDetected
          = decide (l + 1 ≤ LOST_THRESHOLD) := by
        rw [stepDebounce_leftDet, h1, h2, updatePresence_miss_snd,
          updatePresence_step_det]
      have harr : l + (r :: rs).length = (l + 1) + rs.length := by
        rw [List.length_cons]
        omega
      rw [harr]
      exact ih _ (l + 1) hl hd

theorem debounce_right_missRun (ls : List Bool) :
    ∀ (t : DebounceState) (l : ℕ),
      t.rightLostFrames = l → t.rightHandDetected = decide (l ≤ LOST_THRESHOLD) →
      (runDebounce t (ls.map fun b => (b, false))).rightHandDetected
        = decide (l + ls.length ≤ LOST_THRESHOLD) := by
  induction ls with
  | nil =>
      intro t l h1 h2
      simpa [runDebounce_nil] using h2
  | cons b ls ih =>
      intro t l h1 h2
      rw [List.map_cons, runDebounce_cons]
      have hl : (stepDebounce t b false).1.rightLostFrames = l + 1 := by
        rw [stepDebounce_rightLost, h1, updatePresence_miss_fst]
      have hd : (stepDebounce t b false).1.rightHandDetected
          = decide (l + 1 ≤ LOST_THRESHOLD) := by
        rw [stepDebounce_rightDet, h1, h2, updatePresence_miss_snd,
          updatePresence_step_det]
      have harr : l + (b :: ls).length = (l + 1) + ls.length := by
        rw [List.length_cons]
        omega
      rw [harr]
      exact ih _ (l + 1) hl hd

/-- C4: presence debouncing in the lost-frame-counter variant.  A frame
assigning a role resets that role's miss counter to zero and marks it
detected immediately; and starting from a frame that assigned the role,
after any run of consecutive frames that miss the role (the other role's
flag arbitrary each frame) the role is reported detected exactly while the
run is no longer than the debounce threshold — so it is reported absent
only once more than five consecutive frames have missed it. -/
theorem presence_debounce_spec :
    (∀ (t : DebounceState) (fR : Bool),
        (stepDebounce t true fR).1.leftLostFrames = 0
        ∧ (stepDebounce t true fR).1.leftHandDetected = true)
    ∧ (∀ (t : DebounceState) (fL : Bool),
        (stepDebounce t fL true).1.rightLostFrames = 0
        ∧ (stepDebounce t fL true).1.rightHandDetected = true)
    ∧ (∀ (t : DebounceState) (fR : Bool) (rs : List Bool),
        (runDebounce (stepDebounce t true fR).1
            (rs.map fun r => (false, r))).leftHandDetected
          = decide (rs.length ≤ LOST_THRESHOLD))
    ∧ (∀ (t : DebounceState) (fL : Bool) (ls : List Bool),
        (runDebounce (stepDebounce t fL true).1
            (ls.map fun b => (b, false))).rightHandDetected
          = decide (ls.length ≤ LOST_THRESHOLD)) := by
  refine ⟨fun t fR => ⟨rfl, rfl⟩, fun t fL => ⟨rfl, rfl⟩, ?_, ?_⟩
  · intro t fR rs
    have h := debounce_left_missRun rs (stepDebounce t true fR).1 0 rfl rfl
    simpa using h
  · intro t fL ls
    have h := debounce_right_missRun ls (stepDebounce t fL true).1 0 rfl rfl
    simpa using h

/-- Witness for C4: after a frame assigning the left role, six consecutive
missing frames push the counter past the threshold and the role is
reported absent. -/
theorem presence_debounce_spec_witness :
    (runDebounce (stepDebounce initialDebounce true false).1
        ([false, false, false, false, false, false].map fun r => (false, r))).leftHandDetected
      = false := by
  have h := presence_debounce_spec.2.2.1 initialDebounce false
    [false, false, false, false, false, false]
  rw [h]
  rfl

end TerraHold
